import Mathlib

/-!
Verification of the Whanos build orchestrator (`src/orchestrator/main.py`)
against its natural-language specification.

The Python source is shallowly embedded: the repository filesystem, the
process environment, and the external process runner are explicit parameters
(`Repo`, `Env`, `ExtWorld`), and every function below mirrors the control flow of
the equally-named Python function.  Fallible Python code (code that can raise)
is embedded as `Except`.
-/

/-- Outcome of `Path.read_text`.  `fileNotFound` models `FileNotFoundError`;
`ioError` models every other read failure (`PermissionError`,
`UnicodeDecodeError`, ...), which the orchestrator never catches. -/
inductive ReadErr where
  | fileNotFound
  | ioError
deriving DecidableEq, Repr

/-- Python exceptions that can escape the embedded functions besides
command failures: `AttributeError` (e.g. `data.get` on a non-dict),
`TypeError` (e.g. `"test" in 3`), and an uncaught read error. -/
inductive PyErr where
  | attributeError
  | typeError
  | uncaughtRead
deriving DecidableEq, Repr

/-- JSON values as produced by `json.loads`.  Numeric payload values are
irrelevant to every claim, so numbers are carried as `Int`. -/
inductive JVal where
  | null
  | bool (b : Bool)
  | num (n : Int)
  | str (s : String)
  | arr (xs : List JVal)
  | obj (fields : List (String × JVal))

/-- A path, given by its components relative to the repository root. -/
abbrev RPath : Type := List String

/-- The repository filesystem together with the behaviour of the ambient
JSON parser on file contents.  `pathExists` models the source's
`path_exists` oracle (a path counts as present if it exists or is a
symlink), `readText` models `Path.read_text`, and `jsonLoads` models
`json.loads` (`Except.error` = `json.JSONDecodeError`). -/
structure Repo where
  pathExists : RPath → Bool
  readText : RPath → Except ReadErr String
  jsonLoads : String → Except Unit JVal

/-- The process environment, `os.environ`: a variable is either absent
(`none`) or present with a value (`some v`, possibly empty). -/
abbrev Env : Type := String → Option String

/-- The external world of one pipeline run: which invoked commands exit
with status zero, and whether deleting the temporary descriptor artifact
succeeds (`unlinkOk = false` models an `OSError` from `Path.unlink`, in
which case the file remains on disk). -/
structure ExtWorld where
  run : List String → Bool
  unlinkOk : Bool

/-- Command-line arguments of the orchestrator (after `parse_args`). -/
structure Args where
  image : String
  skip_tests : Bool
  no_push : Bool
  build_args : List String
  registry : Option String

/-- Ambient process state that descriptor synthesis could in principle
consult (wall-clock time, randomness).  The translation of
`render_dockerfile` never reads it, which is exactly what claim C7 is
about. -/
structure Ambient where
  clock : Nat
  randomSeed : Nat

/-- Python `str.strip`'s whitespace set. -/
def pyIsSpace (c : Char) : Bool :=
  c == ' ' || c == '\t' || c == '\n' || c == '\r' || c == '\x0b' || c == '\x0c'

/-- Python `str.strip()`: remove leading and trailing whitespace. -/
def pyStrip (s : String) : String :=
  String.mk (((s.data.dropWhile pyIsSpace).reverse.dropWhile pyIsSpace).reverse)

/-- Python `sep.join(l)`. -/
def pyJoin (sep : String) : List String → String
  | [] => ""
  | [x] => x
  | x :: y :: ys => x ++ sep ++ pyJoin sep (y :: ys)

/-- Python truthiness of a JSON value. -/
def pyTruthy : JVal → Bool
  | .null => false
  | .bool b => b
  | .num n => n != 0
  | .str s => s != ""
  | .arr xs => !xs.isEmpty
  | .obj fields => !fields.isEmpty

/-- Python `data.get(key)`: `AttributeError` unless `data` is a dict;
absent keys yield `None`. -/
def pyGet (data : JVal) (key : String) : Except PyErr JVal :=
  match data with
  | .obj fields => .ok ((fields.lookup key).getD .null)
  | _ => .error .attributeError

/-- Python `"test" == v` for a JSON value `v`: true exactly on the equal
string. -/
def pyStrEq (needle : String) : JVal → Bool
  | .str s => s == needle
  | _ => false

/-- Python `needle in container` for a string needle and a JSON container:
key membership for dicts, substring for strings, element membership for
lists, `TypeError` otherwise. -/
def pyContains (needle : String) (container : JVal) : Except PyErr Bool :=
  match container with
  | .obj fields => .ok (fields.lookup needle).isSome
  | .str s => .ok (decide (needle.data <:+: s.data))
  | .arr xs => .ok (xs.any (pyStrEq needle))
  | _ => .error .typeError

/-- Python truthiness of an optional environment value. -/
def truthyOpt : Option String → Bool
  | some s => s != ""
  | none => false

/-- `path_exists`: existence check, symlinks included (delegated to the
filesystem oracle). -/
def path_exists (repo : Repo) (p : RPath) : Bool :=
  repo.pathExists p

/-- `detect_c`: presence of `Makefile`. -/
def detect_c (repo_root : Repo) : Bool :=
  path_exists repo_root ["Makefile"]

/-- `detect_java`: presence of `pom.xml`. -/
def detect_java (repo_root : Repo) : Bool :=
  path_exists repo_root ["pom.xml"]

/-- `detect_javascript`: presence of `package.json`. -/
def detect_javascript (repo_root : Repo) : Bool :=
  path_exists repo_root ["package.json"]

/-- `detect_python`: presence of `requirements.txt`. -/
def detect_python (repo_root : Repo) : Bool :=
  path_exists repo_root ["requirements.txt"]

/-- `detect_befunge`: presence of `app/main.bf`. -/
def detect_befunge (repo_root : Repo) : Bool :=
  path_exists repo_root ["app", "main.bf"]

/-- `test_command_none`. -/
def test_command_none (_ : Repo) : Except PyErr (Option (List String)) :=
  .ok none

/-- `docker_steps_c`. -/
def docker_steps_c (_ : Repo) : List String :=
  ["COPY . .",
   "RUN make",
   "CMD [\"./compiled-app\"]"]

/-- `docker_steps_java`. -/
def docker_steps_java (_ : Repo) : List String :=
  ["COPY . .",
   "RUN mvn -DskipTests package",
   "CMD [\"java\", \"-jar\", \"target/app.jar\"]"]

/-- `docker_steps_javascript`. -/
def docker_steps_javascript (_ : Repo) : List String :=
  ["COPY package*.json ./",
   "RUN npm ci --omit=dev || npm install --production",
   "COPY . .",
   "CMD [\"node\", \".\"]"]

/-- `docker_steps_python`: the dependency-install steps are emitted only
when `requirements.txt` is present. -/
def docker_steps_python (repo_root : Repo) : List String :=
  (if path_exists repo_root ["requirements.txt"] then
    ["COPY requirements.txt ./",
     "RUN pip install --no-cache-dir -r requirements.txt"]
   else
    ["# requirements.txt missing; skipping dependency installation"])
  ++ ["COPY . .",
      "CMD [\"python\", \"-m\", \"app\"]"]

/-- `docker_steps_befunge`. -/
def docker_steps_befunge (_ : Repo) : List String :=
  ["COPY . .",
   "CMD [\"befunge93\", \"app/main.bf\"]"]

/-- `test_command_java`. -/
def test_command_java (_ : Repo) : Except PyErr (Option (List String)) :=
  .ok (some ["mvn", "test"])

/-- `test_command_javascript`: reads and parses `package.json`.
`FileNotFoundError` and `json.JSONDecodeError` are caught and yield no
test command; any other read failure propagates.  When the parse
succeeds, `data.get("scripts")` raises unless `data` is a dict, a falsy
scripts value is replaced by the empty dict, and the `"test" in scripts`
check follows Python `in` semantics. -/
def test_command_javascript (repo_root : Repo) : Except PyErr (Option (List String)) :=
  match repo_root.readText ["package.json"] with
  | .error .fileNotFound => .ok none
  | .error .ioError => .error .uncaughtRead
  | .ok raw =>
    match repo_root.jsonLoads raw with
    | .error _ => .ok none
    | .ok data =>
      match pyGet data "scripts" with
      | .error e => .error e
      | .ok v =>
        let scripts := if pyTruthy v then v else JVal.obj []
        match pyContains "test" scripts with
        | .error e => .error e
        | .ok b => .ok (if b then some ["npm", "test", "--", "--watch=false"] else none)

/-- `test_command_python`: a test command exists when one of the pytest
markers is present. -/
def test_command_python (repo_root : Repo) : Except PyErr (Option (List String)) :=
  if path_exists repo_root ["tests"] || path_exists repo_root ["test"]
      || path_exists repo_root ["pytest.ini"] then
    .ok (some ["python", "-m", "pytest"])
  else
    .ok none

/-- `LanguageConfig` (the dataclass). -/
structure LanguageConfig where
  name : String
  detector : Repo → Bool
  base_image_env : String
  default_base_image : String
  test_command : Repo → Except PyErr (Option (List String))
  dockerfile_instructions : Repo → List String

/-- The `"c"` entry of `LANGUAGE_CONFIGS`. -/
def cConfig : LanguageConfig :=
  { name := "c"
    detector := detect_c
    base_image_env := "WHANOS_BASE_IMAGE_C"
    default_base_image := "whanos-c:latest"
    test_command := test_command_none
    dockerfile_instructions := docker_steps_c }

/-- The `"java"` entry of `LANGUAGE_CONFIGS`. -/
def javaConfig : LanguageConfig :=
  { name := "java"
    detector := detect_java
    base_image_env := "WHANOS_BASE_IMAGE_JAVA"
    default_base_image := "whanos-java:latest"
    test_command := test_command_java
    dockerfile_instructions := docker_steps_java }

/-- The `"javascript"` entry of `LANGUAGE_CONFIGS`. -/
def javascriptConfig : LanguageConfig :=
  { name := "javascript"
    detector := detect_javascript
    base_image_env := "WHANOS_BASE_IMAGE_JAVASCRIPT"
    default_base_image := "whanos-javascript:latest"
    test_command := test_command_javascript
    dockerfile_instructions := docker_steps_javascript }

/-- The `"python"` entry of `LANGUAGE_CONFIGS`. -/
def pythonConfig : LanguageConfig :=
  { name := "python"
    detector := detect_python
    base_image_env := "WHANOS_BASE_IMAGE_PYTHON"
    default_base_image := "whanos-python:latest"
    test_command := test_command_python
    dockerfile_instructions := docker_steps_python }

/-- The `"befunge"` entry of `LANGUAGE_CONFIGS`. -/
def befungeConfig : LanguageConfig :=
  { name := "befunge"
    detector := detect_befunge
    base_image_env := "WHANOS_BASE_IMAGE_BEFUNGE"
    default_base_image := "whanos-befunge:latest"
    test_command := test_command_none
    dockerfile_instructions := docker_steps_befunge }

/-- `LANGUAGE_CONFIGS`, in the source's (insertion) order. -/
def LANGUAGE_CONFIGS : List (String × LanguageConfig) :=
  [("c", cConfig),
   ("java", javaConfig),
   ("javascript", javascriptConfig),
   ("python", pythonConfig),
   ("befunge", befungeConfig)]

/-- The error message raised when no language detector matches. -/
def noTechMessage : String :=
  "Unable to detect repository language. Make sure the repo contains exactly one of: Makefile, pom.xml, package.json, requirements.txt, app/main.bf."

/-- The error message raised when several language detectors match:
it joins the matching technology names with a comma. -/
def ambiguousMessage (ms : List (String × LanguageConfig)) : String :=
  "Repository matches multiple language detectors: "
    ++ pyJoin ", " (ms.map (fun p => p.1))
    ++ ". Ensure it only meets one language criterion."

/-- The list built by `detect_language`'s loop: every registered profile
whose detector holds, in registry order. -/
def detected_matches (repo_root : Repo) : List (String × LanguageConfig) :=
  LANGUAGE_CONFIGS.filter (fun p => p.2.detector repo_root)

/-- `detect_language`: no match raises the no-technology error, more than
one match raises the ambiguity error, exactly one match returns its
profile (`matches[0][1]`). -/
def detect_language (repo_root : Repo) : Except String LanguageConfig :=
  match detected_matches repo_root with
  | [] => .error noTechMessage
  | [(_, config)] => .ok config
  | ms => .error (ambiguousMessage ms)

/-- `resolve_base_image`: `os.environ.get(var, default)` — the environment
value whenever the variable is present (even empty), else the default. -/
def resolve_base_image (env : Env) (config : LanguageConfig) : String :=
  match env config.base_image_env with
  | some v => v
  | none => config.default_base_image

/-- The begin marker emitted before an append snippet. -/
def beginMarker : String := "# --- Begin repository-provided customizations ---"

/-- The end marker emitted after an append snippet. -/
def endMarker : String := "# --- End repository-provided customizations ---"

/-- `render_dockerfile`: header comment, base-image line, fixed working
directory, profile instructions; a truthy `extra_snippet` additionally
contributes a blank line, the begin marker, the stripped snippet and the
end marker.  The lines are joined with newlines and a trailing newline is
added. -/
def render_dockerfile (env : Env) (config : LanguageConfig) (repo_root : Repo)
    (extra_snippet : Option String) : String :=
  let base_image := resolve_base_image env config
  let instructions :=
    ["# Generated by Whanos orchestrator. Do not edit.",
     "FROM " ++ base_image,
     "WORKDIR /app"]
    ++ config.dockerfile_instructions repo_root
  let instructions :=
    match extra_snippet with
    | some s =>
      if s = "" then instructions
      else instructions ++ ["", beginMarker, pyStrip s, endMarker]
    | none => instructions
  pyJoin "\n" instructions ++ "\n"

/-- Location of the override artifact. -/
def overridePath : RPath := ["whanos", "Dockerfile.override"]

/-- Location of the append artifact. -/
def appendPath : RPath := ["whanos", "Dockerfile.append"]

/-- `locate_customizations`: which of the two customization artifacts are
present (override first, append second). -/
def locate_customizations (repo_root : Repo) : Option RPath × Option RPath :=
  (if path_exists repo_root overridePath then some overridePath else none,
   if path_exists repo_root appendPath then some appendPath else none)

/-- The descriptor-selection logic of `main`: a present override artifact
is read and used verbatim; otherwise the descriptor is synthesized, with
the append artifact's content (when present) passed as the extra snippet.
Read errors propagate. -/
def main_descriptor (env : Env) (config : LanguageConfig) (repo_root : Repo) :
    Except ReadErr String :=
  let customizations := locate_customizations repo_root
  match customizations.1 with
  | some p => repo_root.readText p
  | none =>
    match customizations.2 with
    | some p =>
      match repo_root.readText p with
      | .ok snippet => .ok (render_dockerfile env config repo_root (some snippet))
      | .error e => .error e
    | none => .ok (render_dockerfile env config repo_root none)

/-- Python `c in s` for a character and a string. -/
def strHasChar (s : String) (c : Char) : Bool :=
  s.data.contains c

/-- Python `image_ref.split("/")[0]`: the leading `/`-separated segment
(everything before the first `/`, or the whole string when it has no
`/`). -/
def leadingSegment (image_ref : String) : String :=
  String.mk (image_ref.data.takeWhile (fun c => c != '/'))

/-- `extract_registry`: the leading `/`-separated segment of the image
reference, provided the reference contains a `/` and the segment contains
a dot or a colon. -/
def extract_registry (image_ref : String) : Option String :=
  if !(strHasChar image_ref '/') then none
  else
    let registry_candidate := leadingSegment image_ref
    if strHasChar registry_candidate '.' || strHasChar registry_candidate ':' then
      some registry_candidate
    else none

/-- `args.registry or extract_registry(args.image)` in `main`, with
Python truthiness of the explicit parameter. -/
def effective_registry (argRegistry : Option String) (image : String) : Option String :=
  match argRegistry with
  | some r => if r = "" then extract_registry image else some r
  | none => extract_registry image

/-- Failures that abort the pipeline. -/
inductive PipeErr where
  | cmdFailed (command : List String)
  | loginFailed (registry : String)
  | py (e : PyErr)
deriving Repr, DecidableEq

/-- `build_test_in_container`, returning the list of test-related external
process invocations it performed: none when tests are skipped or when the
profile resolves no test command; otherwise the single `docker run`
invocation with the repository mounted at `/app`.  A non-zero exit or an
exception escaping the test-command resolver is fatal. -/
def build_test_in_container (ext : ExtWorld) (env : Env) (config : LanguageConfig)
    (repo_root : Repo) (repoPath : String) (skip_tests : Bool) :
    Except PipeErr (List (List String)) :=
  if skip_tests then .ok []
  else
    match config.test_command repo_root with
    | .error e => .error (.py e)
    | .ok none => .ok []
    | .ok (some test_command) =>
      let base_image := resolve_base_image env config
      let command :=
        ["docker", "run", "--rm", "-v", repoPath ++ ":/app", "-w", "/app", base_image]
        ++ test_command
      if ext.run command then .ok [command] else .error (.cmdFailed command)

/-- `docker_login`, returning the login invocations performed: nothing
without an effective registry, nothing (a warning) when either credential
is absent or empty, otherwise one `docker login` call whose failure is
fatal.  The password travels on stdin, never in the command line. -/
def docker_login (ext : ExtWorld) (env : Env) (registry : Option String) :
    Except PipeErr (List (List String)) :=
  match registry with
  | none => .ok []
  | some reg =>
    let username := env "WHANOS_REGISTRY_USERNAME"
    let password := env "WHANOS_REGISTRY_PASSWORD"
    if !truthyOpt username || !truthyOpt password then .ok []
    else
      let command := ["docker", "login", reg, "-u", username.getD "", "--password-stdin"]
      if ext.run command then .ok [command] else .error (.loginFailed reg)

/-- `build_image`: one `docker build` invocation with the descriptor path,
the target tag, pass-through build arguments, and the repository root. -/
def build_image (ext : ExtWorld) (repoPath dockerfile_path image_ref : String)
    (build_args : List String) : Except PipeErr (List (List String)) :=
  let command :=
    ["docker", "build", "-f", dockerfile_path, "-t", image_ref]
    ++ (build_args.map (fun a => ["--build-arg", a])).flatten
    ++ [repoPath]
  if ext.run command then .ok [command] else .error (.cmdFailed command)

/-- `push_image`: one `docker push` invocation. -/
def push_image (ext : ExtWorld) (image_ref : String) : Except PipeErr (List (List String)) :=
  let command := ["docker", "push", image_ref]
  if ext.run command then .ok [command] else .error (.cmdFailed command)

/-- The `try/finally` tail of `main`, entered right after the temporary
descriptor artifact is written: test stage, registry resolution, login,
build, optional push; then, unconditionally, the best-effort
`tmp_path.unlink(missing_ok=True)` with `OSError` swallowed.  The first
component is the pipeline outcome, the second whether the temporary
artifact still exists afterwards (it does exactly when the deletion
failed). -/
def pipeline_tail (ext : ExtWorld) (env : Env) (args : Args) (config : LanguageConfig)
    (repo_root : Repo) (repoPath tmpPath : String) : Except PipeErr Unit × Bool :=
  let body : Except PipeErr Unit := do
    let _ ← build_test_in_container ext env config repo_root repoPath args.skip_tests
    let registry := effective_registry args.registry args.image
    let _ ← docker_login ext env registry
    let _ ← build_image ext repoPath tmpPath args.image args.build_args
    if args.no_push then
      pure ()
    else do
      let _ ← push_image ext args.image
      pure ()
  (body, !ext.unlinkOk)

/-- Descriptor synthesis as performed by one invocation of the pipeline,
with the ambient process state (clock, randomness) it could in principle
observe made explicit.  `render_dockerfile` never consults it. -/
def synthesize_descriptor (_ : Ambient) (env : Env) (config : LanguageConfig)
    (repo_root : Repo) (extra_snippet : Option String) : String :=
  render_dockerfile env config repo_root extra_snippet

/-- The empty environment: no variable set. -/
def env0 : Env := fun _ => none

/-- An environment where the C base-image variable is set to the empty
string. -/
def envEmptyC : Env := fun v => if v == "WHANOS_BASE_IMAGE_C" then some "" else none

/-- An environment where the C base-image variable is set to a custom
image reference. -/
def envSetC : Env := fun v => if v == "WHANOS_BASE_IMAGE_C" then some "mirror/whanos-c:2" else none

/-- A world where every external command succeeds and the temporary
artifact deletion succeeds. -/
def extOk : ExtWorld := { run := fun _ => true, unlinkOk := true }

/-- A world where every external command fails and the temporary artifact
deletion also fails with an `OSError`. -/
def extFail : ExtWorld := { run := fun _ => false, unlinkOk := false }

/-- The empty repository: no paths, no readable files. -/
def repo0 : Repo :=
  { pathExists := fun _ => false
    readText := fun _ => .error .fileNotFound
    jsonLoads := fun _ => .error () }

/-- A repository containing only a `Makefile`. -/
def repoMake : Repo :=
  { pathExists := fun p => p == ["Makefile"]
    readText := fun _ => .error .fileNotFound
    jsonLoads := fun _ => .error () }

/-- A repository containing both a `pom.xml` and a `requirements.txt`:
two detectors match. -/
def repoJavaPy : Repo :=
  { pathExists := fun p => p == ["pom.xml"] || p == ["requirements.txt"]
    readText := fun _ => .error .fileNotFound
    jsonLoads := fun _ => .error () }

/-- A repository providing both customization artifacts. -/
def repoBoth : Repo :=
  { pathExists := fun p => p == overridePath || p == appendPath
    readText := fun p =>
      if p == overridePath then .ok "FROM scratch\n"
      else if p == appendPath then .ok "RUN apk add curl\n"
      else .error .fileNotFound
    jsonLoads := fun _ => .error () }

/-- A repository providing only an append artifact whose content ` X `
is padded with whitespace. -/
def repoC4 : Repo :=
  { pathExists := fun p => p == appendPath
    readText := fun p => if p == appendPath then .ok " X " else .error .fileNotFound
    jsonLoads := fun _ => .error () }

/-- A repository whose `package.json` exists but cannot be read (for
example a permission or decoding error). -/
def repoPkgUnreadable : Repo :=
  { pathExists := fun p => p == ["package.json"]
    readText := fun p =>
      if p == ["package.json"] then .error .ioError else .error .fileNotFound
    jsonLoads := fun _ => .error () }

/-- The raw text of a `package.json` whose `scripts` member is the string
`"latest"` rather than a mapping. -/
def pkgScriptsString : String := "\x7b\"scripts\": \"latest\"\x7d"

/-- A repository whose `package.json` parses to an object whose `scripts`
member is the string `"latest"`. -/
def repoPkgScriptsString : Repo :=
  { pathExists := fun p => p == ["package.json"]
    readText := fun p =>
      if p == ["package.json"] then .ok pkgScriptsString else .error .fileNotFound
    jsonLoads := fun s =>
      if s == pkgScriptsString then .ok (JVal.obj [("scripts", JVal.str "latest")])
      else .error () }

/-- Arguments targeting an image reference with no registry segment,
with tests skipped and push disabled. -/
def args0 : Args :=
  { image := "app"
    skip_tests := true
    no_push := true
    build_args := []
    registry := none }

/-- Whether a descriptor instruction is a runtime entry-point (`CMD`)
instruction: it starts with `CMD` followed by a space. -/
def isCMD (instruction : String) : Bool :=
  "CMD ".data.isPrefixOf instruction.data

/-- Appending a non-empty list on the right of a non-empty list
distributes over `pyJoin` with one separator in between, exactly as for
Python's `sep.join`. -/
theorem pyJoin_append (sep : String) (l m : List String) (hl : l ≠ []) (hm : m ≠ []) :
    pyJoin sep (l ++ m) = pyJoin sep l ++ sep ++ pyJoin sep m := by
  induction l with
  | nil => exact absurd rfl hl
  | cons y ys ih =>
    cases ys with
    | nil =>
      cases m with
      | nil => exact absurd rfl hm
      | cons z zs => simp [pyJoin]
    | cons z zs =>
      have h := ih (by simp)
      have e1 : pyJoin sep ((y :: z :: zs) ++ m) = y ++ sep ++ pyJoin sep ((z :: zs) ++ m) := rfl
      rw [e1, h]
      simp [pyJoin, String.append_assoc]

/-- Every element of a joined list occurs inside the join. -/
theorem mem_pyJoin (sep x : String) (l : List String) (h : x ∈ l) :
    x.data <:+: (pyJoin sep l).data := by
  induction l with
  | nil => cases h
  | cons y ys ih =>
    cases ys with
    | nil =>
      have hx : x = y := by simpa using h
      subst hx
      exact List.infix_rfl
    | cons z zs =>
      rcases List.mem_cons.mp h with hx | hmem
      · subst hx
        show x.data <:+: (x ++ sep ++ pyJoin sep (z :: zs)).data
        rw [String.append_assoc, String.data_append]
        exact (List.prefix_append _ _).isInfix
      · have hInf := ih hmem
        show x.data <:+: (y ++ sep ++ pyJoin sep (z :: zs)).data
        rw [String.append_assoc, String.data_append, String.data_append]
        exact (hInf.trans (List.suffix_append _ _).isInfix).trans
          (List.suffix_append _ _).isInfix

/-- An infix of `m` is an infix of `pre ++ m ++ suf`. -/
theorem infix_surround (x : List Char) (pre m suf : String) (h : x <:+: m.data) :
    x <:+: (pre ++ m ++ suf).data := by
  rw [String.data_append, String.data_append]
  exact (h.trans (List.suffix_append _ _).isInfix).trans (List.prefix_append _ _).isInfix

set_option maxRecDepth 20000 in
/-- C1: for every repository root, language detection returns the unique
matching profile when exactly one detection predicate holds (the match
list is a singleton); when zero hold it fails with the no-technology
error, whose message lists all five recognized markers; when two or more
hold it fails with the ambiguity error, whose message contains every
matching technology name. -/
theorem detect_language_spec (repo : Repo) :
    (∀ name config, detected_matches repo = [(name, config)] →
      detect_language repo = .ok config)
    ∧ (detected_matches repo = [] →
      detect_language repo = .error noTechMessage
        ∧ "Makefile".data <:+: noTechMessage.data
        ∧ "pom.xml".data <:+: noTechMessage.data
        ∧ "package.json".data <:+: noTechMessage.data
        ∧ "requirements.txt".data <:+: noTechMessage.data
        ∧ "app/main.bf".data <:+: noTechMessage.data)
    ∧ (∀ p q ms, detected_matches repo = p :: q :: ms →
      detect_language repo = .error (ambiguousMessage (p :: q :: ms))
        ∧ ∀ r ∈ p :: q :: ms, r.1.data <:+: (ambiguousMessage (p :: q :: ms)).data) := by
  refine ⟨?_, ?_, ?_⟩
  · intro name config h
    unfold detect_language
    rw [h]
  · intro h
    refine ⟨?_, by decide, by decide, by decide, by decide, by decide⟩
    unfold detect_language
    rw [h]
  · intro p q ms h
    obtain ⟨pn, pc⟩ := p
    obtain ⟨qn, qc⟩ := q
    constructor
    · unfold detect_language
      rw [h]
    · intro r hr
      have hmem : r.1 ∈ ((pn, pc) :: (qn, qc) :: ms).map (fun p => p.1) :=
        List.mem_map.mpr ⟨r, hr, rfl⟩
      simp only [ambiguousMessage]
      exact infix_surround _ _ _ _ (mem_pyJoin ", " r.1 _ hmem)

/-- Witness for C1: a Makefile-only repository detects as C; an empty
repository raises the no-technology error; a repository with both
`pom.xml` and `requirements.txt` raises the ambiguity error naming java
and python. -/
theorem detect_language_spec_witness :
    detect_language repoMake = .ok cConfig
    ∧ detect_language repo0 = .error noTechMessage
    ∧ detect_language repoJavaPy
        = .error (ambiguousMessage [("java", javaConfig), ("python", pythonConfig)]) :=
  ⟨(detect_language_spec repoMake).1 "c" cConfig rfl,
   ((detect_language_spec repo0).2.1 rfl).1,
   ((detect_language_spec repoJavaPy).2.2 ("java", javaConfig) ("python", pythonConfig)
     [] rfl).1⟩

/-- C2 counterexample: with the C profile's base-image variable set to
the empty string, `resolve_base_image` returns the empty string, not the
compiled-in default as the claim states. -/
theorem resolve_base_image_counterexample :
    resolve_base_image envEmptyC cConfig = ""
    ∧ resolve_base_image envEmptyC cConfig ≠ cConfig.default_base_image :=
  ⟨rfl, by decide⟩

/-- C2 (amended): `resolve_base_image` returns the environment value
whenever the profile's base-image variable is present — including when it
is set to the empty string — and the compiled-in default exactly when the
variable is absent. -/
theorem resolve_base_image_spec (env : Env) (config : LanguageConfig) :
    (∀ v, env config.base_image_env = some v → resolve_base_image env config = v)
    ∧ (env config.base_image_env = none →
        resolve_base_image env config = config.default_base_image) := by
  constructor
  · intro v h
    unfold resolve_base_image
    rw [h]
  · intro h
    unfold resolve_base_image
    rw [h]

/-- Witness for C2 (amended): a set variable wins, an absent variable
falls back to the default. -/
theorem resolve_base_image_spec_witness :
    resolve_base_image envSetC cConfig = "mirror/whanos-c:2"
    ∧ resolve_base_image env0 cConfig = "whanos-c:latest" :=
  ⟨(resolve_base_image_spec envSetC cConfig).1 "mirror/whanos-c:2" rfl,
   (resolve_base_image_spec env0 cConfig).2 rfl⟩

/-- C3: when the override artifact is present and readable, the
descriptor handed to the image build is its raw content verbatim, for
every detected profile, environment, and append-artifact state; the
synthesis path is not consulted. -/
theorem override_descriptor_spec (env : Env) (config : LanguageConfig) (repo : Repo)
    (content : String)
    (hexists : path_exists repo overridePath = true)
    (hread : repo.readText overridePath = .ok content) :
    main_descriptor env config repo = .ok content := by
  unfold main_descriptor locate_customizations
  rw [hexists]
  simpa using hread

/-- Witness for C3: a repository providing both an override and an append
artifact produces exactly the override text. -/
theorem override_descriptor_spec_witness :
    main_descriptor env0 cConfig repoBoth = .ok "FROM scratch\n" :=
  override_descriptor_spec env0 cConfig repoBoth "FROM scratch\n" rfl rfl

set_option maxRecDepth 200000 in
/-- C4 counterexample: with an append artifact whose content is ` X `
(whitespace-padded) and no override, the produced descriptor strips the
surrounding whitespace, so the raw append content does not occur in the
descriptor: characters of the append content are lost. -/
theorem append_descriptor_counterexample :
    main_descriptor env0 befungeConfig repoC4 =
      .ok "# Generated by Whanos orchestrator. Do not edit.\nFROM whanos-befunge:latest\nWORKDIR /app\nCOPY . .\nCMD [\"befunge93\", \"app/main.bf\"]\n\n# --- Begin repository-provided customizations ---\nX\n# --- End repository-provided customizations ---\n"
    ∧ ¬ (" X ".data <:+:
      "# Generated by Whanos orchestrator. Do not edit.\nFROM whanos-befunge:latest\nWORKDIR /app\nCOPY . .\nCMD [\"befunge93\", \"app/main.bf\"]\n\n# --- Begin repository-provided customizations ---\nX\n# --- End repository-provided customizations ---\n".data) := by
  exact ⟨rfl, by decide⟩

/-- The empty string is a left identity for string append. -/
theorem empty_str_append (a : String) : "" ++ a = a := rfl

/-- Rendering with a non-empty snippet equals rendering without one
followed by a blank line, the begin marker, the stripped snippet and the
end marker, each on its own line. -/
theorem render_dockerfile_with_snippet (env : Env) (config : LanguageConfig)
    (repo : Repo) (raw : String) (hne : raw ≠ "") :
    render_dockerfile env config repo (some raw) =
      render_dockerfile env config repo none
        ++ "\n" ++ beginMarker ++ "\n" ++ pyStrip raw ++ "\n" ++ endMarker ++ "\n" := by
  have lhs_eq : render_dockerfile env config repo (some raw)
      = pyJoin "\n" (if raw = "" then
          ["# Generated by Whanos orchestrator. Do not edit.",
           "FROM " ++ resolve_base_image env config,
           "WORKDIR /app"] ++ config.dockerfile_instructions repo
        else
          (["# Generated by Whanos orchestrator. Do not edit.",
            "FROM " ++ resolve_base_image env config,
            "WORKDIR /app"] ++ config.dockerfile_instructions repo)
          ++ ["", beginMarker, pyStrip raw, endMarker]) ++ "\n" := rfl
  have rhs_eq : render_dockerfile env config repo none
      = pyJoin "\n"
          (["# Generated by Whanos orchestrator. Do not edit.",
            "FROM " ++ resolve_base_image env config,
            "WORKDIR /app"] ++ config.dockerfile_instructions repo) ++ "\n" := rfl
  rw [lhs_eq, rhs_eq, if_neg hne,
    pyJoin_append "\n" _ ["", beginMarker, pyStrip raw, endMarker] (by simp) (by simp)]
  simp only [pyJoin, String.append_assoc, empty_str_append]

/-- C4 (amended): for every repository with a non-empty append artifact
and no override artifact, the produced descriptor equals the synthesized
base content followed by a blank line, the begin marker, the append
content with its surrounding whitespace stripped, and the end marker,
each on its own line; the stripped content itself is embedded unchanged
and in order. -/
theorem append_descriptor_spec (env : Env) (config : LanguageConfig) (repo : Repo)
    (raw : String)
    (hov : path_exists repo overridePath = false)
    (hap : path_exists repo appendPath = true)
    (hread : repo.readText appendPath = .ok raw)
    (hne : raw ≠ "") :
    main_descriptor env config repo =
      .ok (render_dockerfile env config repo none
        ++ "\n" ++ beginMarker ++ "\n" ++ pyStrip raw ++ "\n" ++ endMarker ++ "\n") := by
  simp [main_descriptor, locate_customizations, hov, hap, hread]
  exact render_dockerfile_with_snippet env config repo raw hne

/-- Witness for C4 (amended): the append-only repository with content
` X ` produces the synthesized base plus the marker-wrapped stripped
content. -/
theorem append_descriptor_spec_witness :
    main_descriptor env0 befungeConfig repoC4 =
      .ok (render_dockerfile env0 befungeConfig repoC4 none
        ++ "\n" ++ beginMarker ++ "\n" ++ pyStrip " X " ++ "\n" ++ endMarker ++ "\n") :=
  append_descriptor_spec env0 befungeConfig repoC4 " X " rfl rfl rfl (by decide)

/-- C5 counterexample: a run whose build stage fails and whose artifact
deletion fails with a filesystem error ends with the temporary descriptor
artifact still existing, contradicting the claim that the path never
exists after the pipeline ends. -/
theorem pipeline_cleanup_counterexample :
    (pipeline_tail extFail env0 args0 befungeConfig repo0 "/repo" "/tmp/whanos.Dockerfile").2
      = true
    ∧ (pipeline_tail extFail env0 args0 befungeConfig repo0 "/repo" "/tmp/whanos.Dockerfile").1
      = .error (.cmdFailed
          ["docker", "build", "-f", "/tmp/whanos.Dockerfile", "-t", "app", "/repo"]) :=
  ⟨rfl, rfl⟩

/-- C5 (amended): for every pipeline run entered after the temporary
descriptor artifact was created, the artifact's path does not exist after
the pipeline ends whenever the deletion operation itself succeeds —
whether the run ended in success or in a fatal failure at any later stage
— and the deletion outcome (including a filesystem error, which leaves
the path behind) never changes the run's otherwise-successful or
otherwise-failed result. -/
theorem pipeline_cleanup_spec (ext : ExtWorld) (env : Env) (args : Args)
    (config : LanguageConfig) (repo : Repo) (repoPath tmpPath : String) :
    (ext.unlinkOk = true →
      (pipeline_tail ext env args config repo repoPath tmpPath).2 = false)
    ∧ ∀ u : Bool,
      (pipeline_tail { run := ext.run, unlinkOk := u } env args config repo repoPath tmpPath).1
        = (pipeline_tail ext env args config repo repoPath tmpPath).1 := by
  constructor
  · intro h
    simp [pipeline_tail, h]
  · intro u
    rfl

/-- Witness for C5 (amended): with a successful deletion the artifact is
gone after the run. -/
theorem pipeline_cleanup_spec_witness :
    (pipeline_tail extOk env0 args0 befungeConfig repo0 "/repo" "/tmp/d").2 = false :=
  (pipeline_cleanup_spec extOk env0 args0 befungeConfig repo0 "/repo" "/tmp/d").1 rfl

/-- C6: with no explicit registry parameter, the effective registry is
the leading slash-separated segment of the image reference exactly when
the reference contains a slash and that segment contains a dot or a
colon; otherwise there is no effective registry and the authentication
stage performs no login invocation. -/
theorem extract_registry_spec (image : String) :
    (effective_registry none image = some (leadingSegment image) ↔
      (strHasChar image '/' = true
        ∧ (strHasChar (leadingSegment image) '.' = true
            ∨ strHasChar (leadingSegment image) ':' = true)))
    ∧ (effective_registry none image = none →
        ∀ (ext : ExtWorld) (env : Env),
          docker_login ext env (effective_registry none image) = .ok []) := by
  constructor
  · unfold effective_registry extract_registry
    by_cases h1 : strHasChar image '/'
    · by_cases h2 : strHasChar (leadingSegment image) '.'
      · simp [h1, h2]
      · by_cases h3 : strHasChar (leadingSegment image) ':'
        · simp [h1, h2, h3]
        · simp [h1, h2, h3]
    · simp [h1]
  · intro h ext env
    rw [h]
    rfl

/-- Witness for C6: `library/app` has no dot or colon in its leading
segment, so no registry is derived and login is skipped; a dotted leading
segment is taken as the registry hostname. -/
theorem extract_registry_spec_witness :
    docker_login extOk env0 (effective_registry none "library/app") = .ok []
    ∧ effective_registry none "registry.example.com/org/app:tag"
        = some "registry.example.com" :=
  ⟨(extract_registry_spec "library/app").2 (by decide) extOk env0,
   (extract_registry_spec "registry.example.com/org/app:tag").1.mpr
     ⟨by decide, Or.inl (by decide)⟩⟩

/-- C7: descriptor synthesis reads no ambient process state (no clock,
no randomness), so two invocations on the same repository state,
environment, profile and customization set produce byte-identical
descriptor text. -/
theorem synthesize_descriptor_deterministic (a1 a2 : Ambient) (env : Env)
    (config : LanguageConfig) (repo : Repo) (extra_snippet : Option String) :
    synthesize_descriptor a1 env config repo extra_snippet
      = synthesize_descriptor a2 env config repo extra_snippet := rfl

/-- C8: with the skip-tests flag set, the test stage performs zero
test-related external process invocations and succeeds, even when the
profile's test-command resolver returns a non-empty command for the
repository. -/
theorem skip_tests_spec (ext : ExtWorld) (env : Env) (config : LanguageConfig)
    (repo : Repo) (repoPath : String) (cmd : List String)
    (_hresolve : config.test_command repo = .ok (some cmd)) (_hne : cmd ≠ []) :
    build_test_in_container ext env config repo repoPath true = .ok [] := rfl

/-- Witness for C8: the java profile always resolves the non-empty test
command `mvn test`, yet with skip-tests set no invocation happens. -/
theorem skip_tests_spec_witness :
    build_test_in_container extOk env0 javaConfig repo0 "/repo" true = .ok [] :=
  skip_tests_spec extOk env0 javaConfig repo0 "/repo" ["mvn", "test"] rfl (by decide)

/-- C9: every profile in the registry, on every repository root, generates
an instruction sequence containing exactly one runtime entry-point (CMD)
instruction, and that instruction is the last element of the sequence. -/
theorem single_entrypoint_spec :
    ∀ p ∈ LANGUAGE_CONFIGS, ∀ repo : Repo,
      ((p.2.dockerfile_instructions repo).countP isCMD = 1)
      ∧ ((p.2.dockerfile_instructions repo).getLast?.map isCMD = some true) := by
  intro p hp repo
  simp only [LANGUAGE_CONFIGS, List.mem_cons, List.mem_singleton,
    List.not_mem_nil, or_false] at hp
  rcases hp with h | h | h | h | h <;> subst h
  · exact ⟨(by decide :
        (docker_steps_c repo0).countP isCMD = 1),
      (by decide : (docker_steps_c repo0).getLast?.map isCMD = some true)⟩
  · exact ⟨(by decide :
        (docker_steps_java repo0).countP isCMD = 1),
      (by decide : (docker_steps_java repo0).getLast?.map isCMD = some true)⟩
  · exact ⟨(by decide :
        (docker_steps_javascript repo0).countP isCMD = 1),
      (by decide : (docker_steps_javascript repo0).getLast?.map isCMD = some true)⟩
  · by_cases hre : path_exists repo ["requirements.txt"]
    · have e : pythonConfig.dockerfile_instructions repo
          = ["COPY requirements.txt ./",
             "RUN pip install --no-cache-dir -r requirements.txt",
             "COPY . .",
             "CMD [\"python\", \"-m\", \"app\"]"] := by
        show docker_steps_python repo = _
        unfold docker_steps_python
        rw [if_pos hre]
        rfl
      rw [e]
      exact ⟨by decide, by decide⟩
    · have e : pythonConfig.dockerfile_instructions repo
          = ["# requirements.txt missing; skipping dependency installation",
             "COPY . .",
             "CMD [\"python\", \"-m\", \"app\"]"] := by
        show docker_steps_python repo = _
        unfold docker_steps_python
        rw [if_neg hre]
        rfl
      rw [e]
      exact ⟨by decide, by decide⟩
  · exact ⟨(by decide :
        (docker_steps_befunge repo0).countP isCMD = 1),
      (by decide : (docker_steps_befunge repo0).getLast?.map isCMD = some true)⟩

/-- Witness for C9: the C profile's instruction sequence has exactly one
CMD instruction, in last position. -/
theorem single_entrypoint_spec_witness :
    ((("c", cConfig) : String × LanguageConfig).2.dockerfile_instructions repo0).countP isCMD
        = 1
    ∧ ((("c", cConfig) : String × LanguageConfig).2.dockerfile_instructions
        repo0).getLast?.map isCMD = some true :=
  single_entrypoint_spec ("c", cConfig) (by simp [LANGUAGE_CONFIGS]) repo0

/-- C10 counterexample: a `package.json` that exists but is unreadable
makes the javascript test-command resolver raise instead of returning no
test command; and a valid-JSON manifest whose `scripts` member is the
string `"latest"` (not a mapping, containing no `test` key) makes the
resolver return a test command, because Python's `in` performs a
substring check on strings. -/
theorem test_command_javascript_counterexample :
    test_command_javascript repoPkgUnreadable = .error .uncaughtRead
    ∧ test_command_javascript repoPkgScriptsString
        = .ok (some ["npm", "test", "--", "--watch=false"]) :=
  ⟨rfl, rfl⟩

/-- C10 (amended): when `package.json` is missing or not valid JSON the
javascript test-command resolver returns no test command, and a resolver
returning no test command makes the test stage a silent no-op rather
than a pipeline failure; other read failures propagate as exceptions.
When the manifest parses to a JSON object whose `scripts` member is
absent or null the resolver returns no command, and when the `scripts`
member is an object the resolver returns the fixed non-empty test
command exactly when that object contains a `test` key.  (A `scripts`
member that is a non-empty string or array is instead subjected to
Python `in` semantics and can spuriously produce the command.) -/
theorem test_command_javascript_spec (repo : Repo) (ext : ExtWorld) (env : Env)
    (repoPath : String) :
    (repo.readText ["package.json"] = .error .fileNotFound →
      test_command_javascript repo = .ok none)
    ∧ (test_command_javascript repo = .ok none →
      build_test_in_container ext env javascriptConfig repo repoPath false = .ok [])
    ∧ (∀ raw, repo.readText ["package.json"] = .ok raw →
        repo.jsonLoads raw = .error () →
        test_command_javascript repo = .ok none)
    ∧ (∀ raw fields, repo.readText ["package.json"] = .ok raw →
        repo.jsonLoads raw = .ok (.obj fields) →
        (fields.lookup "scripts" = none ∨ fields.lookup "scripts" = some .null) →
        test_command_javascript repo = .ok none)
    ∧ (∀ raw fields sf, repo.readText ["package.json"] = .ok raw →
        repo.jsonLoads raw = .ok (.obj fields) →
        fields.lookup "scripts" = some (.obj sf) →
        (test_command_javascript repo = .ok (some ["npm", "test", "--", "--watch=false"])
          ↔ (sf.lookup "test").isSome = true)) := by
  refine ⟨?_, ?_, ?_, ?_, ?_⟩
  · intro h
    simp [test_command_javascript, h]
  · intro h
    have e : javascriptConfig.test_command repo = .ok none := h
    simp [build_test_in_container, e]
  · intro raw h1 h2
    simp [test_command_javascript, h1, h2]
  · intro raw fields h1 h2 h3
    rcases h3 with h3 | h3 <;>
      simp [test_command_javascript, h1, h2, pyGet, h3, pyTruthy, pyContains]
  · intro raw fields sf h1 h2 h3
    rcases sf with _ | ⟨kv, sft⟩
    · simp [test_command_javascript, h1, h2, pyGet, h3, pyTruthy, pyContains]
    · by_cases hb : (((kv :: sft) : List (String × JVal)).lookup "test").isSome <;>
        simp [test_command_javascript, h1, h2, pyGet, h3, pyTruthy, pyContains, hb]

/-- Witness for C10 (amended): with `package.json` absent the resolver
returns no command and the test stage performs no invocation. -/
theorem test_command_javascript_spec_witness :
    test_command_javascript repo0 = .ok none
    ∧ build_test_in_container extOk env0 javascriptConfig repo0 "/repo" false = .ok [] :=
  ⟨(test_command_javascript_spec repo0 extOk env0 "/repo").1 rfl,
   (test_command_javascript_spec repo0 extOk env0 "/repo").2.1
     ((test_command_javascript_spec repo0 extOk env0 "/repo").1 rfl)⟩
